import Mathlib

/-!
Verification of the PERN-STACK-STORE backend server (`backend/server.js` and
the router file it imports, `backend/routes/productRoutes.js`) against its
natural-language specification.  The JavaScript is shallowly embedded:
strings stay strings, the express registration order becomes an explicit
list of stages, the arcjet middleware becomes a function from the request's
environment/User-Agent/decision-service outcome to the action it takes, and
the bootstrap (`initDB().then(...)`) becomes an event trace.
-/

namespace PernStore

/- ### String helpers mirroring the JavaScript string methods used -/

/-- Character-list version of JavaScript `String.prototype.startsWith`:
`leadMatch pre s` is true when `pre` is an initial segment of `s`. -/
def leadMatch : List Char → List Char → Bool
  | [], _ => true
  | _ :: _, [] => false
  | a :: as, b :: bs => a == b && leadMatch as bs

/-- Character-list version of JavaScript `String.prototype.includes`:
`containsSeq pat s` is true when `pat` occurs contiguously inside `s`. -/
def containsSeq (pat : List Char) : List Char → Bool
  | [] => pat.isEmpty
  | c :: rest => leadMatch pat (c :: rest) || containsSeq pat rest

/-- `strStarts pre s` models `s.startsWith(pre)`. -/
def strStarts (pre s : String) : Bool := leadMatch pre.data s.data

/-- `strLower s` models `s.toLowerCase()` (per-character lowering). -/
def strLower (s : String) : String := ⟨s.data.map Char.toLower⟩

/-- `strIncludes s pat` models `s.includes(pat)`. -/
def strIncludes (s pat : String) : Bool := containsSeq pat.data s.data

/- ### The Router (backend/routes/productRoutes.js and the second router file) -/

inductive Method
  | get | post | put | delete
deriving DecidableEq, Repr

/-- One `router.<method>(pattern, handler)` registration in an express router. -/
structure Route where
  method : Method
  pattern : String
  handler : String
deriving DecidableEq, Repr

/-- The routes registered by `backend/routes/productRoutes.js`, the file
`server.js` imports as `./routes/productRoutes.js`:
`router.get("/", getAllProducts); router.post("/", createProduct);`. -/
def productRoutes : List Route :=
  [ ⟨.get, "/", "getAllProducts"⟩,
    ⟨.post, "/", "createProduct"⟩ ]

/-- The routes registered by the repository's second product-router file
(present in the repository but not at the path `server.js` imports):
get/, get/:id, post/, put/:id, delete/:id. -/
def fullProductRoutes : List Route :=
  [ ⟨.get, "/", "getProducts"⟩,
    ⟨.get, "/:id", "getProduct"⟩,
    ⟨.post, "/", "createProduct"⟩,
    ⟨.put, "/:id", "updateProduct"⟩,
    ⟨.delete, "/:id", "deleteProduct"⟩ ]

/-- The mount point of the product router: `app.use("/api/products", productRoutes)`. -/
def apiRoot : String := "/api/products"

/-- The absolute path pattern a router-local pattern answers once mounted at
`apiRoot` ("/" answers the mount point itself). -/
def mountedPattern (pat : String) : String :=
  if pat = "/" then apiRoot else apiRoot ++ pat

/-- Whether a router mounted at `apiRoot` maps the method+path pair `(m, p)`
to some handler. -/
def routerMaps (routes : List Route) (m : Method) (p : String) : Bool :=
  routes.any fun rt => rt.method == m && mountedPattern rt.pattern == p

/-- The five CRUD method+path pairs the spec lists for the HTTP API. -/
def crudEndpoints : List (Method × String) :=
  [ (.get, "/api/products"),
    (.get, "/api/products/:id"),
    (.post, "/api/products"),
    (.put, "/api/products/:id"),
    (.delete, "/api/products/:id") ]

/- ### The arcjet rate-limit/bot middleware (server.js lines 42-75) -/

/-- The reason attached to a denied arcjet decision (`decision.reason`):
`isRateLimit()`, `isBot()`, or anything else. -/
inductive DenyReason
  | rateLimit | bot | other
deriving DecidableEq, Repr

/-- One element of `decision.results`, exposing the two predicates the code
reads: `result.reason.isBot()` and `result.reason.isSpoofed()`. -/
structure SubResult where
  reasonBot : Bool
  reasonSpoofed : Bool
deriving DecidableEq, Repr

/-- The decision object returned by `aj.protect`: `isDenied()`, the deny
reason, and the sub-results list. -/
structure Decision where
  denied : Bool
  reason : DenyReason
  results : List SubResult
deriving DecidableEq, Repr

/-- Outcome of the `await aj.protect(req, {requested: 1})` call: either a
decision object, or a thrown error (the decision service is unreachable). -/
inductive ProtectCall
  | ok (d : Decision)
  | err
deriving DecidableEq, Repr

/-- The action the middleware takes.  `respond s e` models
`res.status(s).json({ error: e })` — a JSON body whose `error` field is `e`;
`bypass` is the dev-only `return next()` taken before `aj.protect` is
consulted; `next` is the `next()` after an allowed decision; `nextError`
is `next(error)`, forwarding to express's generic error responder. -/
inductive MwResult
  | bypass
  | respond (status : Nat) (errorField : String)
  | next
  | nextError
deriving DecidableEq, Repr

/-- `ua.toLowerCase().includes('postman')`. -/
def uaMatchesPostman (ua : String) : Bool := strIncludes (strLower ua) "postman"

/-- The development bypass test:
`process.env.NODE_ENV !== 'production' && ua.toLowerCase().includes('postman')`
where `ua = req.headers['user-agent'] || ''` (a missing header is the empty
string). -/
def devBypass (env : String) (ua : Option String) : Bool :=
  env != "production" && uaMatchesPostman (ua.getD "")

/-- `decision.results.some(r => r.reason.isBot() && r.reason.isSpoofed())`. -/
def spoofedBot (d : Decision) : Bool :=
  d.results.any fun r => r.reasonBot && r.reasonSpoofed

/-- What the middleware does with the decision object once `aj.protect`
returned one (server.js lines 53-70). -/
def decisionOutcome (d : Decision) : MwResult :=
  if d.denied then
    match d.reason with
    | .rateLimit => .respond 429 "Too Many Requests"
    | .bot => .respond 403 "Bot access denied"
    | .other => .respond 403 "Forbidden"
  else if spoofedBot d then .respond 403 "Spoofed bot detected"
  else .next

/-- What the middleware does after the `aj.protect` call: the `catch` arm
forwards a thrown error via `next(error)`. -/
def protectOutcome : ProtectCall → MwResult
  | .err => .nextError
  | .ok d => decisionOutcome d

/-- The whole arcjet middleware (server.js lines 42-75), as a function of the
environment flag, the request's User-Agent header, and what the
`aj.protect` call would do. -/
def arcjetMiddleware (env : String) (ua : Option String) (call : ProtectCall) :
    MwResult :=
  if devBypass env ua then .bypass else protectOutcome call

/- ### The Static/API Dispatcher (server.js registration order) -/

/-- One registration on the express app, in the order `server.js` performs
them: the five admission middlewares, then `app.get("/test-path", ...)`,
`app.use("/api/products", productRoutes)`, `app.get("/api/test", ...)`,
`express.static(distPath)`, and finally the production-only catch-all. -/
inductive AppStage
  | jsonParser
  | corsMw
  | helmetMw (cspDisabled : Bool)
  | morganMw
  | arcjetMw
  | testPath
  | apiProducts
  | apiTest
  | staticFiles
  | catchAll
deriving DecidableEq, Repr

/-- The registrations `server.js` makes before `initDB()` runs, in source
order (lines 32-107). -/
def appStack : List AppStage :=
  [ .jsonParser,
    .corsMw,
    .helmetMw true,
    .morganMw,
    .arcjetMw,
    .testPath,
    .apiProducts,
    .apiTest,
    .staticFiles ]

/-- Whether a stage is a route/static alternative (as opposed to a
pass-through admission middleware). -/
def isRouting : AppStage → Bool
  | .testPath | .apiProducts | .apiTest | .staticFiles | .catchAll => true
  | _ => false

/-- The routing alternatives of `appStack`, in registration order. -/
def routingStack : List AppStage := appStack.filter isRouting

/-- The request data the dispatcher consults: method, path, and whether the
static asset directory holds a file matching the path. -/
structure ReqInfo where
  method : Method
  path : String
  staticFileExists : Bool
deriving DecidableEq, Repr

/-- Split a character list on `/`, keeping the pieces between slashes. -/
def splitOnSlash : List Char → List (List Char)
  | [] => [[]]
  | c :: rest =>
    if c = '/' then [] :: splitOnSlash rest
    else
      match splitOnSlash rest with
      | [] => [[c]]
      | s :: ss => (c :: s) :: ss

/-- The non-empty path segments of a path or route pattern (express ignores
empty segments produced by leading/trailing slashes). -/
def pathSegs (s : String) : List (List Char) :=
  (splitOnSlash s.data).filter (fun l => !l.isEmpty)

/-- Whether one express pattern segment accepts one path segment: a
`:name` parameter segment accepts any (non-empty) segment, a literal
segment only its exact text. -/
def segAccepts (pat seg : List Char) : Bool :=
  match pat with
  | ':' :: _ => !seg.isEmpty
  | _ => pat == seg

/-- Segment-wise matching of a route pattern against a sub-path: same
number of segments, each accepted. -/
def segsAccept : List (List Char) → List (List Char) → Bool
  | [], [] => true
  | p :: ps, s :: ss => segAccepts p s && segsAccept ps ss
  | _, _ => false

/-- Whether a router-local route pattern (e.g. `/` or `/:id`) matches the
path remainder left after stripping the mount point. -/
def routeMatchesPath (pat subpath : String) : Bool :=
  segsAccept (pathSegs pat) (pathSegs subpath)

/-- Drop the first `n` characters of a string (used to strip the mount
point from a request path). -/
def stripLead (n : Nat) (s : String) : String := ⟨s.data.drop n⟩

/-- Whether the router mounted at `apiRoot` actually answers the request:
the path must fall under the mount point, and the router must hold a route
whose method and pattern match the remainder.  A mounted express router
whose internal routes all miss calls `next()`, so the outer stack
continues past it. -/
def routerAnswers (routes : List Route) (m : Method) (p : String) : Bool :=
  (p == apiRoot || strStarts (apiRoot ++ "/") p)
    && routes.any fun rt =>
      rt.method == m && routeMatchesPath rt.pattern (stripLead apiRoot.data.length p)

/-- Whether a routing stage answers the request: `/test-path` is a GET
route on that exact path; the `/api/products` mount answers only those
requests the imported router (`productRoutes`, i.e. `GET /` and `POST /`)
has a route for — on any other path or method under the mount the router
falls through to the stages after it; `/api/test` is a GET route on that
exact path; `express.static` answers a GET whose path matches a file in
`dist`. -/
def stageMatches (r : ReqInfo) : AppStage → Bool
  | .testPath => r.method == .get && r.path == "/test-path"
  | .apiProducts => routerAnswers productRoutes r.method r.path
  | .apiTest => r.method == .get && r.path == "/api/test"
  | .staticFiles => r.method == .get && r.staticFileExists
  | _ => false

/-- Dispatch: the first routing stage, in registration order, that answers
the request (express tries the stack top-down). -/
def dispatch (r : ReqInfo) : Option AppStage := routingStack.find? (stageMatches r)

/-- The liveness payload of `app.get("/api/test")`:
`res.json({ message: "API is working" })`, as (status, message). -/
def apiTestHandler : Nat × String := (200, "API is working")

/-- The `/test-path` diagnostic payload: whether `dist/index.html` exists and
the directory listing (empty when it does not exist), mirroring
`{ exists, files: exists ? fs.readdirSync(...) : [] }`. -/
def testPathHandler (indexExists : Bool) (distFiles : List String) :
    Bool × List String :=
  (indexExists, if indexExists then distFiles else [])

/- ### The production catch-all (server.js lines 154-173) -/

/-- What the catch-all middleware does with a request: pass on (`next()`),
send the SPA entry document (`res.sendFile(indexPath)`), or reply 404. -/
inductive CatchAllResult
  | next
  | sendIndex
  | notFound (msg : String)
deriving DecidableEq, Repr

/-- The catch-all's skip test:
`req.path.startsWith('/api/') || req.path === '/test-path'`. -/
def catchAllSkip (p : String) : Bool := strStarts "/api/" p || p == "/test-path"

/-- The body of the production catch-all middleware, as a function of the
request path and of whether `dist/index.html` exists. -/
def catchAllHandler (p : String) (indexExists : Bool) : CatchAllResult :=
  if catchAllSkip p then .next
  else if indexExists then .sendIndex
  else .notFound "Frontend build not found"

/-- Whether the catch-all stage is installed at all:
`if (process.env.NODE_ENV === "production")` inside `initDB().then`. -/
def catchAllInstalled (env : String) : Bool := env == "production"

/- ### Server bootstrap (initDB and the .then continuation) -/

/-- Observable bootstrap events: the `CREATE TABLE IF NOT EXISTS` statement
finishing (successfully or not), the `console.log("Error initDB", ...)`
line of `initDB`'s catch arm, the installation of the production catch-all,
and `app.listen(PORT)`. -/
inductive BootEvent
  | createTableDone (ok : Bool)
  | logInitError
  | installCatchAll
  | listen (port : Nat)
deriving DecidableEq, Repr

/-- `const PORT = process.env.PORT || 3005` with no `PORT` variable set. -/
def defaultPort : Nat := 3005

/-- `initDB` (server.js lines 112-128): awaits the table-create statement;
a storage error is caught and logged inside the function, so the returned
promise resolves (`Except.ok`) in both cases.  `storeOk` abstracts whether
the statement succeeds. -/
def initDB (storeOk : Bool) : Except String (List BootEvent) :=
  match (if storeOk then Except.ok () else Except.error "storage failure" :
      Except String Unit) with
  | .ok _ => .ok [.createTableDone true]
  | .error _ => .ok [.createTableDone false, .logInitError]

/-- The bootstrap trace: `initDB().then(() => { if production install
catch-all; app.listen(PORT) })`.  The `.then` continuation runs only if
`initDB`'s promise resolves. -/
def bootstrap (env : String) (storeOk : Bool) : List BootEvent :=
  match initDB storeOk with
  | .ok t =>
    t ++ (if env = "production" then [.installCatchAll] else [])
      ++ [.listen defaultPort]
  | .error _ => []

def isCreateDone : BootEvent → Bool
  | .createTableDone _ => true
  | _ => false

def isInstallCatchAll : BootEvent → Bool
  | .installCatchAll => true
  | _ => false

def isListen : BootEvent → Bool
  | .listen _ => true
  | _ => false

/-- Events produced inside `initDB` itself. -/
def isInitEvent : BootEvent → Bool
  | .createTableDone _ => true
  | .logInitError => true
  | _ => false

/- ### Helper lemmas -/

/-- Once the `aj.protect` call is reached, the middleware never produces the
dev-bypass action. -/
lemma protectOutcome_ne_bypass (c : ProtectCall) : protectOutcome c ≠ .bypass := by
  cases c with
  | err => simp [protectOutcome]
  | ok d =>
    simp only [protectOutcome, decisionOutcome]
    split
    · split <;> simp
    · split <;> simp

/-- The dev-bypass condition, characterized propositionally. -/
lemma devBypass_eq_true_iff (env : String) (ua : Option String) :
    devBypass env ua = true ↔
      (env ≠ "production" ∧ uaMatchesPostman (ua.getD "") = true) := by
  simp [devBypass, Bool.and_eq_true, bne_iff_ne, uaMatchesPostman]

/- ### Claim theorems -/

/-- C1 counterexample: the router file `server.js` actually imports
(`backend/routes/productRoutes.js`) does NOT map all five CRUD method+path
pairs; in particular `PUT /api/products/:id` has no handler there. -/
theorem c1_counterexample :
    (crudEndpoints.all fun e => routerMaps productRoutes e.1 e.2) = false
    ∧ routerMaps productRoutes .put "/api/products/:id" = false := by
  decide

/-- C1 (amended): the router imported by the server maps only
`GET /api/products` and `POST /api/products`; the single-product, update and
delete endpoints are not mapped by it, although the repository's second
(unimported) router file maps all five. -/
theorem c1_imported_router_routes :
    routerMaps productRoutes .get "/api/products" = true
    ∧ routerMaps productRoutes .post "/api/products" = true
    ∧ routerMaps productRoutes .get "/api/products/:id" = false
    ∧ routerMaps productRoutes .put "/api/products/:id" = false
    ∧ routerMaps productRoutes .delete "/api/products/:id" = false
    ∧ (crudEndpoints.all fun e => routerMaps fullProductRoutes e.1 e.2) = true := by
  decide

/-- C2: the rate-limit stage bypasses the decision service exactly when the
environment is non-production AND the User-Agent (empty string if missing)
matches the test-tool signature; in production the middleware's action is
whatever the `aj.protect` call dictates (the service is always consulted). -/
theorem c2_bypass_iff (env : String) (ua : Option String) (call : ProtectCall) :
    (arcjetMiddleware env ua call = .bypass ↔
      (env ≠ "production" ∧ uaMatchesPostman (ua.getD "") = true))
    ∧ (env = "production" → arcjetMiddleware env ua call = protectOutcome call) := by
  constructor
  · rw [← devBypass_eq_true_iff]
    constructor
    · intro hb
      by_cases h : devBypass env ua = true
      · exact h
      · exfalso
        have h' : devBypass env ua = false := by
          simpa using h
        simp only [arcjetMiddleware, h', Bool.false_eq_true, if_false] at hb
        exact protectOutcome_ne_bypass call hb
    · intro h
      simp [arcjetMiddleware, h]
  · intro hp
    have h' : devBypass env ua = false := by
      simp [devBypass, hp]
    simp [arcjetMiddleware, h']

/-- C2 witness: in production with a Postman User-Agent the decision service
is still consulted (no bypass), and outside production that User-Agent does
trigger the bypass. -/
theorem c2_bypass_iff_witness :
    (arcjetMiddleware "production" (some "postman") .err = .bypass ↔
      (("production" : String) ≠ "production"
        ∧ uaMatchesPostman ((some "postman").getD "") = true))
    ∧ (("production" : String) = "production" →
        arcjetMiddleware "production" (some "postman") .err = protectOutcome .err) :=
  c2_bypass_iff "production" (some "postman") .err

/-- C3: once a request is evaluated by the decision service (no dev bypass),
a denied decision yields 429 for a rate-limit reason, 403 for a bot reason,
403 for any other reason; an allowed decision with a spoofed-bot sub-result
yields 403; otherwise control passes to the next stage.  Each `respond`
action is `res.status(s).json({ error: e })`, so every denial body is a JSON
object with an `error` field. -/
theorem c3_decision_statuses (env : String) (ua : Option String) (d : Decision)
    (h : devBypass env ua = false) :
    (d.denied = true → d.reason = .rateLimit →
      arcjetMiddleware env ua (.ok d) = .respond 429 "Too Many Requests")
    ∧ (d.denied = true → d.reason = .bot →
      arcjetMiddleware env ua (.ok d) = .respond 403 "Bot access denied")
    ∧ (d.denied = true → d.reason = .other →
      arcjetMiddleware env ua (.ok d) = .respond 403 "Forbidden")
    ∧ (d.denied = false → spoofedBot d = true →
      arcjetMiddleware env ua (.ok d) = .respond 403 "Spoofed bot detected")
    ∧ (d.denied = false → spoofedBot d = false →
      arcjetMiddleware env ua (.ok d) = .next) := by
  simp only [arcjetMiddleware, h, Bool.false_eq_true, if_false, protectOutcome]
  refine ⟨?_, ?_, ?_, ?_, ?_⟩ <;> intro h1 h2 <;>
    simp [decisionOutcome, h1, h2]

/-- C3 witness: in production (no bypass possible) a denied rate-limit
decision is answered 429 with an `error` body. -/
theorem c3_decision_statuses_witness :
    devBypass "production" none = false
    ∧ arcjetMiddleware "production" none (.ok ⟨true, .rateLimit, []⟩)
        = .respond 429 "Too Many Requests" :=
  ⟨by decide,
    (c3_decision_statuses "production" none ⟨true, .rateLimit, []⟩ (by decide)).1
      rfl rfl⟩

/-- C4: when the `aj.protect` call itself fails on a request that was not
bypassed, the middleware forwards the error via `next(error)` — it neither
passes plain control onward nor default-allows. -/
theorem c4_fails_closed (env : String) (ua : Option String)
    (h : devBypass env ua = false) :
    arcjetMiddleware env ua .err = .nextError
    ∧ arcjetMiddleware env ua .err ≠ .next
    ∧ arcjetMiddleware env ua .err ≠ .bypass := by
  simp [arcjetMiddleware, h, protectOutcome]

/-- C4 witness: a decision-service failure in production forwards the error. -/
theorem c4_fails_closed_witness :
    arcjetMiddleware "production" none .err = .nextError
    ∧ arcjetMiddleware "production" none .err ≠ .next
    ∧ arcjetMiddleware "production" none .err ≠ .bypass :=
  c4_fails_closed "production" none (by decide)

/-- C10: a request with no User-Agent header behaves exactly like one with
the empty-string identifier and never triggers the dev bypass; and outside
production, any User-Agent whose lowercasing contains "postman" as a
substring (not only an exact match) triggers the bypass. -/
theorem c10_ua_handling (env : String) (ua : String) (call : ProtectCall) :
    arcjetMiddleware env none call = arcjetMiddleware env (some "") call
    ∧ arcjetMiddleware env none call ≠ .bypass
    ∧ (env ≠ "production" → uaMatchesPostman ua = true →
        arcjetMiddleware env (some ua) call = .bypass) := by
  have hm : uaMatchesPostman "" = false := by decide
  have h0 : devBypass env none = false := by
    simp [devBypass, Option.getD, hm]
  refine ⟨rfl, ?_, ?_⟩
  · simp only [arcjetMiddleware, h0, Bool.false_eq_true, if_false]
    exact protectOutcome_ne_bypass call
  · intro h1 h2
    have hby : devBypass env (some ua) = true := by
      simp [devBypass, Bool.and_eq_true, bne_iff_ne, h1, h2]
    simp [arcjetMiddleware, hby]

/-- C10 witness: a User-Agent merely containing "PoStMan" (mixed case, inside
a longer string) triggers the bypass outside production, while a missing
User-Agent does not. -/
theorem c10_ua_handling_witness :
    arcjetMiddleware "development" none .err
        = arcjetMiddleware "development" (some "") .err
    ∧ arcjetMiddleware "development" none .err ≠ .bypass
    ∧ arcjetMiddleware "development" (some "Agent PoStMan/9.1") .err = .bypass := by
  have h := c10_ua_handling "development" "Agent PoStMan/9.1" .err
  exact ⟨h.1, h.2.1, h.2.2 (by decide) (by decide)⟩

/-- C5: the catch-all stage is installed exactly in production; when it runs,
a path neither starting with "/api/" nor equal to "/test-path" is answered
with the SPA entry document if `dist/index.html` exists and with the 404
plain-text "Frontend build not found" message otherwise (skipped paths pass
on); and outside production the bootstrap never installs the stage, so no
trace contains the installation event. -/
theorem c5_catch_all (env p : String) (indexExists storeOk : Bool) :
    (catchAllInstalled env = true ↔ env = "production")
    ∧ (catchAllSkip p = false → indexExists = true →
        catchAllHandler p indexExists = .sendIndex)
    ∧ (catchAllSkip p = false → indexExists = false →
        catchAllHandler p indexExists = .notFound "Frontend build not found")
    ∧ (catchAllSkip p = true → catchAllHandler p indexExists = .next)
    ∧ (env ≠ "production" →
        (bootstrap env storeOk).any isInstallCatchAll = false) := by
  refine ⟨?_, ?_, ?_, ?_, ?_⟩
  · simp [catchAllInstalled]
  · intro h1 h2
    subst h2
    simp [catchAllHandler, h1]
  · intro h1 h2
    subst h2
    simp [catchAllHandler, h1]
  · intro h1
    simp [catchAllHandler, h1]
  · intro h
    cases storeOk <;>
      simp [bootstrap, initDB, h, isInstallCatchAll]

/-- C5 witness: in production with a missing build, an ordinary path gets
the 404 message, and an "/api/"-prefixed path is skipped. -/
theorem c5_catch_all_witness :
    (catchAllSkip "/about" = false
      ∧ catchAllHandler "/about" false = .notFound "Frontend build not found")
    ∧ (catchAllSkip "/api/products" = true
      ∧ catchAllHandler "/api/products" false = .next)
    ∧ (catchAllInstalled "production" = true ↔ ("production" : String) = "production") :=
  ⟨⟨by decide, (c5_catch_all "production" "/about" false true).2.2.1 (by decide) rfl⟩,
    ⟨by decide, (c5_catch_all "production" "/api/products" false true).2.2.2.1 (by decide)⟩,
    (c5_catch_all "production" "/x" false true).1⟩

/-- C6: the Static/API Dispatcher's alternatives are, in registration order,
the `/test-path` diagnostic route, the `/api/products` router mount, the
`/api/test` liveness route, and the static file server; dispatch picks the
first alternative that matches (for the mount: that the imported router
actually has a route for — an API-prefixed path the router cannot answer
falls through to the later stages), so an earlier matching alternative
precludes all later ones.  The liveness route answers
`{ message: "API is working" }`. -/
theorem c6_dispatch_order (r : ReqInfo) :
    routingStack = [.testPath, .apiProducts, .apiTest, .staticFiles]
    ∧ (stageMatches r .testPath = true → dispatch r = some .testPath)
    ∧ (stageMatches r .testPath = false → stageMatches r .apiProducts = true →
        dispatch r = some .apiProducts)
    ∧ (stageMatches r .testPath = false → stageMatches r .apiProducts = false →
        stageMatches r .apiTest = true → dispatch r = some .apiTest)
    ∧ (stageMatches r .testPath = false → stageMatches r .apiProducts = false →
        stageMatches r .apiTest = false → stageMatches r .staticFiles = true →
        dispatch r = some .staticFiles)
    ∧ apiTestHandler = (200, "API is working") := by
  have hr : routingStack = [.testPath, .apiProducts, .apiTest, .staticFiles] := by
    decide
  refine ⟨hr, ?_, ?_, ?_, ?_, rfl⟩
  · intro h1
    simp [dispatch, hr, List.find?, h1]
  · intro h1 h2
    simp [dispatch, hr, List.find?, h1, h2]
  · intro h1 h2 h3
    simp [dispatch, hr, List.find?, h1, h2, h3]
  · intro h1 h2 h3 h4
    simp [dispatch, hr, List.find?, h1, h2, h3, h4]

/-- C6 witness: `GET /api/products` is answered by the router mount,
precluding the static stage; `GET /api/products/7` — a path the imported
router has no route for — falls through the mount to the static stage; and
`GET /api/test` reaches the liveness route even though a static file also
exists. -/
theorem c6_dispatch_order_witness :
    dispatch ⟨.get, "/api/products", true⟩ = some .apiProducts
    ∧ dispatch ⟨.get, "/api/products/7", true⟩ = some .staticFiles
    ∧ dispatch ⟨.get, "/api/test", true⟩ = some .apiTest :=
  ⟨(c6_dispatch_order ⟨.get, "/api/products", true⟩).2.2.1
      (by decide) (by decide),
    (c6_dispatch_order ⟨.get, "/api/products/7", true⟩).2.2.2.2.1
      (by decide) (by decide) (by decide) (by decide),
    (c6_dispatch_order ⟨.get, "/api/test", true⟩).2.2.2.1
      (by decide) (by decide) (by decide)⟩

/-- C7: the admission middlewares are registered, in order, as body parsing,
CORS, security headers with content-security-policy disabled, access
logging, then the arcjet rate-limit/bot stage — and they all precede every
routing alternative, so each inbound request passes through them before
routing. -/
theorem c7_admission_order :
    appStack.take 5
        = [.jsonParser, .corsMw, .helmetMw true, .morganMw, .arcjetMw]
    ∧ (appStack.take 5).all (fun s => !(isRouting s)) = true
    ∧ (appStack.drop 5).all isRouting = true := by
  decide

/-- C8: in every bootstrap trace, no catch-all installation and no listen
event precedes the completion of the table-create statement; the statement
does complete, the server does listen, and in production the catch-all is
installed. -/
theorem c8_bootstrap_order (env : String) (storeOk : Bool) :
    ((bootstrap env storeOk).takeWhile (fun e => !(isCreateDone e))).all
        (fun e => !(isInstallCatchAll e) && !(isListen e)) = true
    ∧ (bootstrap env storeOk).any isCreateDone = true
    ∧ (bootstrap env storeOk).any isListen = true
    ∧ (env = "production" →
        (bootstrap env storeOk).any isInstallCatchAll = true) := by
  by_cases h : env = "production"
  · subst h
    cases storeOk <;> decide
  · cases storeOk <;>
      simp [bootstrap, initDB, h, isCreateDone, isInstallCatchAll, isListen]

/-- C8 witness: the production bootstrap with a healthy store sequences
table-create before install and listen. -/
theorem c8_bootstrap_order_witness :
    ((bootstrap "production" true).takeWhile (fun e => !(isCreateDone e))).all
        (fun e => !(isInstallCatchAll e) && !(isListen e)) = true
    ∧ (bootstrap "production" true).any isCreateDone = true
    ∧ (bootstrap "production" true).any isListen = true
    ∧ (("production" : String) = "production" →
        (bootstrap "production" true).any isInstallCatchAll = true) :=
  c8_bootstrap_order "production" true

/-- C9: a failing table-create statement is caught and logged inside
`initDB`, whose promise still resolves; stripped of `initDB`'s own events,
the failing bootstrap trace equals the successful one, so the catch-all (in
production) is installed and the server listens exactly as if
initialization had succeeded. -/
theorem c9_initdb_failure_swallowed (env : String) :
    initDB false = .ok [.createTableDone false, .logInitError]
    ∧ (bootstrap env false).filter (fun e => !(isInitEvent e))
        = (bootstrap env true).filter (fun e => !(isInitEvent e))
    ∧ (bootstrap env false).any isListen = true
    ∧ (catchAllInstalled env = true →
        (bootstrap env false).any isInstallCatchAll = true) := by
  by_cases h : env = "production"
  · subst h
    exact ⟨rfl, rfl, rfl, fun _ => rfl⟩
  · refine ⟨rfl, ?_, ?_, ?_⟩ <;>
      simp [bootstrap, initDB, h, isInitEvent, isListen, catchAllInstalled,
        isInstallCatchAll]

/-- C9 witness: in production, the bootstrap after a storage failure still
installs the catch-all and listens. -/
theorem c9_initdb_failure_swallowed_witness :
    initDB false = .ok [.createTableDone false, .logInitError]
    ∧ (bootstrap "production" false).filter (fun e => !(isInitEvent e))
        = (bootstrap "production" true).filter (fun e => !(isInitEvent e))
    ∧ (bootstrap "production" false).any isListen = true
    ∧ (catchAllInstalled "production" = true →
        (bootstrap "production" false).any isInstallCatchAll = true) :=
  c9_initdb_failure_swallowed "production"

end PernStore
